import Mathlib

/-!
Verification development for the kohaku-commons privacy-pools core.

Part 1 embeds the pool-account reconciliation engine of
`PrivacyController.getPoolAccountsFromAccount` (src/unnamed/part_001,
lines 303-377) together with its helper
`getTimestampFromBlockNumber` (lines 401-419).

Part 2 embeds the transaction orchestration of `PrivacyPoolsController`
(src/src/controllers/privacyPools/privacyPools.ts): `update`,
`destroySignAccountOp`, `reestimate`, `syncSignAccountOp` and the private
`#initSignAccOp`.

Part 3 embeds `generateWithdrawalProof`
(src/src/controllers/privacy/privacy.ts, lines 206-225).

JavaScript `bigint` values are modelled as `Int`; `number` values that the
code treats integrally are also `Int`.  Addresses, calldata and other hex
strings are modelled as `String`.  Nullable/optional values are `Option`.
-/

/-- One node of a spend chain, the SDK's `AccountCommitment`:
value, label, nullifier, secret, content hash, and the block number /
timestamp it was recorded at. -/
structure AccountCommitment where
  value : Int
  label : Int
  nullifier : Int
  secret : Int
  hash : Int
  blockNumber : Int
  timestamp : Int
deriving DecidableEq, Repr, Inhabited

/-- The SDK's `RagequitEvent`, extended by the controller with a
`timestamp` field (`RagequitEventWithTimestamp`). -/
structure RagequitEvent where
  blockNumber : Int
  timestamp : Int
deriving DecidableEq, Repr, Inhabited

/-- The SDK's stored `PoolAccount`: one commitment chain, held in the
account service's `account.poolAccounts` map under its scope.  `deposit`
is the root, `children` the ordered spends, `ragequit` the optional
terminal exit event. -/
structure SDKPoolAccount where
  deposit : AccountCommitment
  children : List AccountCommitment
  ragequit : Option RagequitEvent
deriving DecidableEq, Repr, Inhabited

/-- `ReviewStatus` enum of src/unnamed/part_001, lines 82-88. -/
inductive ReviewStatus where
  | pending
  | approved
  | declined
  | exited
  | spent
deriving DecidableEq, Repr, Inhabited

/-- The controller's user-facing `PoolAccount` (src/unnamed/part_001,
lines 71-80): the SDK chain plus derived fields.  The `chainId` comes
from `Number(Object.keys(chainData).find(...))`; when no configured chain
has a pool with the account's scope, `find` yields `undefined` and
`Number(undefined)` is `NaN`, modelled here as `none`. -/
structure PoolAccount where
  deposit : AccountCommitment
  children : List AccountCommitment
  ragequit : Option RagequitEvent
  name : Nat
  balance : Int
  isValid : Bool
  reviewStatus : ReviewStatus
  lastCommitment : AccountCommitment
  chainId : Option Int
  scope : Int
deriving DecidableEq, Repr, Inhabited

/-- The static chain-configuration table (`chainData` of `./config`,
a file outside src/): per chain id, the scopes of its pools.  The
reconciler only reads it through the scope lookup below, so its exact
record shape is irrelevant. -/
def ChainCfg : Type := List (Int × List Int)

/-- `getTimestampFromBlockNumber` (src/unnamed/part_001, lines 401-419):
the provider is not wired up yet, so any truthy block number resolves to
the hard-coded timestamp `1719876543n`, and the falsy block number `0n`
is returned unchanged. -/
def getTimestampFromBlockNumber (blockNumber : Int) : Int :=
  if blockNumber ≠ 0 then 1719876543 else blockNumber

/-- `Object.keys(chainData).find((key) => chainData[Number(key)].poolInfo.some((pool) => pool.scope === _scope))`
(src/unnamed/part_001, lines 320-322), followed by `Number(_chainId)`;
`none` stands for the `NaN` produced when no chain matches. -/
def findChainId (cfg : ChainCfg) (scope : Int) : Option Int :=
  (List.find? (fun p => p.2.contains scope) cfg).map (fun p => p.1)

/-- Overwrite a commitment's `timestamp` with the resolved one, as the
assignments on src/unnamed/part_001 lines 342-352 do.  The spread
`{...poolAccount}` on line 325 is shallow, so these writes land on the
very objects stored in the account service. -/
def setResolvedTimestamp (c : AccountCommitment) : AccountCommitment :=
  { c with timestamp := getTimestampFromBlockNumber c.blockNumber }

/-- Timestamp resolution applied to one stored chain: the deposit, every
child, and the ragequit event (when present) get their `timestamp`
fields overwritten in place (src/unnamed/part_001, lines 342-363). -/
def setResolvedTimestamps (pa : SDKPoolAccount) : SDKPoolAccount :=
  { deposit := setResolvedTimestamp pa.deposit
    children := pa.children.map setResolvedTimestamp
    ragequit := pa.ragequit.map
      (fun r => { r with timestamp := getTimestampFromBlockNumber r.blockNumber }) }

/-- The body of the inner loop of `getPoolAccountsFromAccount`
(src/unnamed/part_001, lines 314-366) for one chain of one scope, with
`idx` the 1-based position of the chain within its scope.

Returns the stored chain as it stands after the call (the timestamp
writes alias the stored objects) and the produced user-facing account.
`lastCommitment` is computed on line 315-318 before the timestamp writes
but aliases the written objects, so the produced account carries the
resolved timestamps; `balance` and `reviewStatus` are set on lines
326-328 and overwritten on lines 354-357 when a ragequit is present. -/
def reconcileOne (cfg : ChainCfg) (scope : Int) (idx : Nat) (pa : SDKPoolAccount) :
    SDKPoolAccount × PoolAccount :=
  let stored := setResolvedTimestamps pa
  let lastCommitment := stored.children.getLast?.getD stored.deposit
  (stored,
   { deposit := stored.deposit
     children := stored.children
     ragequit := stored.ragequit
     name := idx
     balance := if pa.ragequit.isSome then 0 else lastCommitment.value
     isValid := false
     reviewStatus := if pa.ragequit.isSome then ReviewStatus.exited else ReviewStatus.pending
     lastCommitment := lastCommitment
     chainId := findChainId cfg scope
     scope := scope })

/-- The inner `for (const poolAccount of _poolAccounts)` loop
(src/unnamed/part_001, lines 312-367): `idx` starts at 1 per scope and
increments per chain.  First component: the stored chains after the
timestamp writes; second: the accounts pushed onto `poolAccounts`. -/
def processScope (cfg : ChainCfg) (scope : Int) :
    Nat → List SDKPoolAccount → List SDKPoolAccount × List PoolAccount
  | _, [] => ([], [])
  | idx, pa :: rest =>
    ((reconcileOne cfg scope idx pa).1 :: (processScope cfg scope (idx + 1) rest).1,
     (reconcileOne cfg scope idx pa).2 :: (processScope cfg scope (idx + 1) rest).2)

/-- The outer `for (const [_scope, _poolAccounts] of paMap)` loop
(src/unnamed/part_001, lines 311-368), over the entries of the account
service's `poolAccounts` map in iteration order. -/
def reconcileAll (cfg : ChainCfg) :
    List (Int × List SDKPoolAccount) → List (Int × List SDKPoolAccount) × List PoolAccount
  | [] => ([], [])
  | (scope, pas) :: rest =>
    ((scope, (processScope cfg scope 1 pas).1) :: (reconcileAll cfg rest).1,
     (processScope cfg scope 1 pas).2 ++ (reconcileAll cfg rest).2)

/-- The grouping step `poolAccounts.reduce(...)` (src/unnamed/part_001,
lines 370-373): a JS object keyed by the template string
`chainId-scope`, modelled as an association list keyed by the pair, with
JS insertion-order semantics (new keys appended, existing keys extended
at their position). -/
def addToGroup (acc : List ((Option Int × Int) × List PoolAccount)) (a : PoolAccount) :
    List ((Option Int × Int) × List PoolAccount) :=
  if acc.any (fun g => g.1 = (a.chainId, a.scope)) then
    acc.map (fun g => if g.1 = (a.chainId, a.scope) then (g.1, g.2 ++ [a]) else g)
  else
    acc ++ [((a.chainId, a.scope), [a])]

/-- `poolAccountsByChainScope` (src/unnamed/part_001, lines 370-373). -/
def groupByChainScope (accts : List PoolAccount) :
    List ((Option Int × Int) × List PoolAccount) :=
  accts.foldl addToGroup []

/-- Everything observable about one call of `getPoolAccountsFromAccount`:
the stored chains as left behind (the method mutates them through
aliasing), the full `poolAccounts` array it builds, and the two returned
views (line 376). -/
structure ReconcileResult where
  state : List (Int × List SDKPoolAccount)
  poolAccounts : List PoolAccount
  byCurrentChain : List PoolAccount
  byChainScope : List ((Option Int × Int) × List PoolAccount)
deriving Repr

/-- `getPoolAccountsFromAccount(chainId)` (src/unnamed/part_001, lines
303-377), after the `#accountService` null guard, acting on the stored
`account.poolAccounts` map (`st`).  The filter on line 374 compares
`pa.chainId === chainId`; a `NaN` chain id (modelled `none`) never
equals a number. -/
def getPoolAccountsFromAccount (cfg : ChainCfg) (chainId : Int)
    (st : List (Int × List SDKPoolAccount)) : ReconcileResult :=
  let out := reconcileAll cfg st
  { state := out.1
    poolAccounts := out.2
    byCurrentChain := out.2.filter (fun pa => pa.chainId = some chainId)
    byChainScope := groupByChainScope out.2 }

/-- The `#accountService` guard on src/unnamed/part_001 lines 304-306:
with no account service loaded the method throws. -/
def getPoolAccountsOfController (cfg : ChainCfg) (chainId : Int)
    (svc : Option (List (Int × List SDKPoolAccount))) : Except String ReconcileResult :=
  match svc with
  | none => Except.error "AccountService not initialized"
  | some st => Except.ok (getPoolAccountsFromAccount cfg chainId st)

/-! ## Part 2: the `PrivacyPoolsController` transaction orchestrator
(src/src/controllers/privacyPools/privacyPools.ts). -/

/-- `EstimationStatus` of the signing session's estimation
(../estimation/types); the re-estimation loop only compares against
`Loading`. -/
inductive EstimationStatus where
  | initial
  | loading
  | success
  | failure
deriving DecidableEq, Repr, Inhabited

/-- One call of a batch (`Call` of ../../libs/accountOp/types):
target, value, payload. -/
structure Call where
  «to» : String
  value : Int
  data : String
deriving DecidableEq, Repr, Inhabited

/-- The `AccountOp` built by `#initSignAccOp` (privacyPools.ts lines
192-206): account address, chain id, nonce, the call batch, the
initially-unset signing fields, and the resolved paymaster service in
`meta`. -/
structure AccountOp where
  accountAddr : String
  chainId : Int
  signingKeyAddr : Option String
  gasLimit : Option Int
  nonce : Int
  signature : Option String
  calls : List Call
  paymasterService : Option String
deriving DecidableEq, Repr, Inhabited

/-- The owned `SignAccountOpController` (signing session), as far as the
orchestrator observes it: its account op and its estimation state. -/
structure SignCtrl where
  accountOp : AccountOp
  estimationStatus : EstimationStatus
  estimationErrors : Nat
deriving DecidableEq, Repr, Inhabited

/-- The mutable state of a `PrivacyPoolsController` instance: its public
fields and the private session-lifecycle fields.  The re-estimation
machinery is made explicit: `reestimateAbortController` holds the token
of the live `AbortController` (`none` when absent), `loops` the tokens
of started re-estimation loops that have not yet observed an abort,
`abortedTokens` the tokens whose controller was aborted, `nextToken` a
fresh-token source.  `estimateCount` counts `estimate()` calls issued by
the loop and `sessionsCreated` counts `new SignAccountOpController`
constructions; both only record events the code performs. -/
structure PPState where
  depositAmount : String
  withdrawalAmount : String
  seedPhrase : String
  targetAddress : String
  selectedToken : String
  hasProceeded : Bool
  isInitializedFlag : Bool
  shouldTrackLatestBroadcastedAccountOp : Bool
  latestBroadcastedAccountOp : Option AccountOp
  signAccountOpController : Option SignCtrl
  subscriptionsCount : Nat
  reestimateAbortController : Option Nat
  nextToken : Nat
  loops : List Nat
  abortedTokens : List Nat
  estimateCount : Nat
  sessionsCreated : Nat
deriving DecidableEq, Repr, Inhabited

/-- The field values a freshly constructed `PrivacyPoolsController`
holds (privacyPools.ts lines 37-128). -/
def freshPPState : PPState :=
  { depositAmount := ""
    withdrawalAmount := ""
    seedPhrase := ""
    targetAddress := ""
    selectedToken := ""
    hasProceeded := false
    isInitializedFlag := false
    shouldTrackLatestBroadcastedAccountOp := true
    latestBroadcastedAccountOp := none
    signAccountOpController := none
    subscriptionsCount := 0
    reestimateAbortController := none
    nextToken := 0
    loops := []
    abortedTokens := []
    estimateCount := 0
    sessionsCreated := 0 }

/-- The injected collaborators `#initSignAccOp` reads:
`#selectedAccount.account` (its address), `#networks.networks` (their
chain ids), the keystore's presence, the account-state collaborator
`#accounts.getOrFetchAccountOnChainState` (delivering the on-chain
nonce), and the paymaster configuration
`getAmbirePaymasterService(baseAcc, relayerUrl)` resolves to. -/
structure Collab where
  selectedAccount : Option String
  networks : List Int
  keystorePresent : Bool
  getNonce : String → Int → Int
  paymasterService : Option String

/-- `update(...)` (privacyPools.ts lines 261-277): each of
`depositAmount`, `withdrawalAmount`, `targetAddress` is written only
when the argument is a string (`typeof x === 'string'`), while
`seedPhrase` is unconditionally assigned `seedPhrase || ''` (the falsy
empty string and an absent argument both collapse to `''`). -/
def update (st : PPState) (depositAmount withdrawalAmount seedPhrase targetAddress : Option String) :
    PPState :=
  let st := match depositAmount with
    | some s => { st with depositAmount := s }
    | none => st
  let st := match withdrawalAmount with
    | some s => { st with withdrawalAmount := s }
    | none => st
  let st := match targetAddress with
    | some s => { st with targetAddress := s }
    | none => st
  { st with seedPhrase :=
      (match seedPhrase with
       | some s => if s = "" then "" else s
       | none => "") }

/-- `reestimate()` (privacyPools.ts lines 319-348): a no-op when no
session exists or an `AbortController` is already present; otherwise a
fresh `AbortController` is created and the loop is started with its
signal. -/
def reestimate (st : PPState) : PPState :=
  if st.signAccountOpController = none ∨ st.reestimateAbortController ≠ none then st
  else
    { st with
      reestimateAbortController := some st.nextToken
      loops := st.loops ++ [st.nextToken]
      nextToken := st.nextToken + 1 }

/-- One 30-second interval elapsing (the `await wait(30000)` point of
the loop body, privacyPools.ts lines 326-345): every loop whose signal
was aborted exits; every surviving loop triggers
`signAccountOpController?.estimate()` when the session exists and its
estimation is not already `Loading`. -/
def tick (st : PPState) : PPState :=
  let live := st.loops.filter (fun t => !st.abortedTokens.contains t)
  let triggers := match st.signAccountOpController with
    | some c => if c.estimationStatus ≠ EstimationStatus.loading then live.length else 0
    | none => 0
  { st with loops := live, estimateCount := st.estimateCount + triggers }

/-- `destroySignAccountOp()` (privacyPools.ts lines 296-312): run and
drop every subscription, abort and drop the `AbortController` when one
exists, reset and drop the session when one exists, and clear
`hasProceeded`. -/
def destroySignAccountOp (st : PPState) : PPState :=
  let st := { st with subscriptionsCount := 0 }
  let st := match st.reestimateAbortController with
    | some t => { st with abortedTokens := t :: st.abortedTokens, reestimateAbortController := none }
    | none => st
  let st := match st.signAccountOpController with
    | some _ => { st with signAccountOpController := none }
    | none => st
  { st with hasProceeded := false }

/-- `#initSignAccOp(calls)` (privacyPools.ts lines 164-259): guarded on a
selected account and the absence of a session; the chain id expression
`calls.length > 0 ? BigInt(11155111) : 11155111n` (line 168) yields
`11155111n` on both branches; the matching network is looked up, the
on-chain account state fetched, and — when the keystore is present — the
`AccountOp` is assembled, exactly one `SignAccountOpController` is
constructed, two lifecycle subscriptions are registered, and
`reestimate()` is kicked off. -/
def initSignAccOp (co : Collab) (st : PPState) (calls : List Call) : PPState :=
  if co.selectedAccount = none ∨ st.signAccountOpController ≠ none then st
  else
    match co.selectedAccount with
    | none => st
    | some addr =>
      let chainId : Int := if calls.length > 0 then 11155111 else 11155111
      match co.networks.find? (fun net => net = chainId) with
      | none => st
      | some networkChainId =>
        let nonce := co.getNonce addr networkChainId
        if ¬ co.keystorePresent then st
        else
          let accountOp : AccountOp :=
            { accountAddr := addr
              chainId := networkChainId
              signingKeyAddr := none
              gasLimit := none
              nonce := nonce
              signature := none
              calls := calls
              paymasterService := co.paymasterService }
          let ctrl : SignCtrl :=
            { accountOp := accountOp
              estimationStatus := EstimationStatus.initial
              estimationErrors := 0 }
          reestimate
            { st with
              signAccountOpController := some ctrl
              subscriptionsCount := st.subscriptionsCount + 2
              sessionsCreated := st.sessionsCreated + 1 }

/-- `syncSignAccountOp(calls?)` (privacyPools.ts lines 362-388): no-op
without a selected account or with an empty (or absent) call list; with
an existing session the calls are merged into its operation via
`update({ calls })`; otherwise `#initSignAccOp` builds the session. -/
def syncSignAccountOp (co : Collab) (st : PPState) (calls : Option (List Call)) : PPState :=
  if co.selectedAccount = none then st
  else
    let transactionCalls := calls.getD []
    if transactionCalls.isEmpty then st
    else
      match st.signAccountOpController with
      | some ctrl =>
        { st with
          signAccountOpController := some { ctrl with
            accountOp := { ctrl.accountOp with calls := transactionCalls } } }
      | none => initSignAccOp co st transactionCalls

/-! ## Part 3: `generateWithdrawalProof`
(src/src/controllers/privacy/privacy.ts, lines 206-225; the identical
payload is built in src/unnamed/part_001, lines 234-255). -/

/-- The `precommitment` record of the withdrawal preimage. -/
structure Precommitment where
  hash : Int
  nullifier : Int
  secret : Int
deriving DecidableEq, Repr, Inhabited

/-- The `preimage` record passed to `proveWithdrawal`. -/
structure WithdrawalPreimage where
  label : Int
  value : Int
  precommitment : Precommitment
deriving DecidableEq, Repr, Inhabited

/-- The first argument of `this.#sdk.proveWithdrawal`: the preimage plus
the public `hash` and `nullifierHash` of the commitment being spent. -/
structure WithdrawalPayload where
  preimage : WithdrawalPreimage
  hash : Int
  nullifierHash : Int
deriving DecidableEq, Repr, Inhabited

/-- The SDK's `WithdrawalProofInput`, opaque to the controller and passed
through to the prover unchanged. -/
structure WithdrawalProofInput where
  raw : Int
deriving DecidableEq, Repr, Inhabited

/-- `generateWithdrawalProof(commitment, input)` (privacy.ts lines
206-225): after the SDK-initialization assertion, the withdrawal payload
is assembled — `label`, `value`, `nullifier`, `secret` and the public
`hash` from the commitment, but `precommitment.hash` and `nullifierHash`
from the literal `BigInt('0x1234')` — and handed to the prover.  An
`Except.ok` value is exactly what reaches `this.#sdk.proveWithdrawal`;
no other exit path exists. -/
def generateWithdrawalProof (sdkInitialized : Bool) (commitment : AccountCommitment)
    (input : WithdrawalProofInput) : Except String (WithdrawalPayload × WithdrawalProofInput) :=
  if ¬ sdkInitialized then
    Except.error "SDK not initialized. Call initSDK() in a window context first."
  else
    Except.ok
      ({ preimage :=
           { label := commitment.label
             value := commitment.value
             precommitment :=
               { hash := 0x1234
                 nullifier := commitment.nullifier
                 secret := commitment.secret } }
         hash := commitment.hash
         nullifierHash := 0x1234 },
       input)

/-! ## Concrete fixtures used by witnesses and counterexamples. -/

/-- A configuration with one chain (Sepolia) owning one pool of scope 777. -/
def cfgEx : ChainCfg := [(11155111, [777])]

/-- A deposit of value 50, recorded at block 1, timestamp not yet resolved. -/
def depositEx : AccountCommitment :=
  { value := 50, label := 1, nullifier := 5, secret := 6, hash := 99
    blockNumber := 1, timestamp := 0 }

/-- A single-deposit chain: no children, no ragequit. -/
def chainEx : SDKPoolAccount := { deposit := depositEx, children := [], ragequit := none }

/-- An account service holding exactly that chain under scope 777. -/
def stEx : List (Int × List SDKPoolAccount) := [(777, [chainEx])]

/-- The single reconciled account of `stEx`. -/
def acctEx : PoolAccount := ((getPoolAccountsFromAccount cfgEx 11155111 stEx).poolAccounts).headI

/-- An account service holding one chain whose deposit has value 0. -/
def stZeroEx : List (Int × List SDKPoolAccount) :=
  [(777, [{ deposit := { depositEx with value := 0 }, children := [], ragequit := none }])]

/-- The reconciled account of the zero-value chain. -/
def acctZeroEx : PoolAccount :=
  ((getPoolAccountsFromAccount cfgEx 11155111 stZeroEx).poolAccounts).headI

/-- A deposit of value 100. -/
def depositSmallEx : AccountCommitment :=
  { value := 100, label := 2, nullifier := 9, secret := 10, hash := 100
    blockNumber := 2, timestamp := 0 }

/-- A child commitment whose value 200 exceeds its parent's 100: the
chain containing it is malformed in the spec's sense. -/
def childBigEx : AccountCommitment :=
  { value := 200, label := 2, nullifier := 11, secret := 12, hash := 101
    blockNumber := 3, timestamp := 0 }

/-- Two scopes: scope 10 holds the malformed chain, scope 20 a sound one. -/
def stMalformedEx : List (Int × List SDKPoolAccount) :=
  [(10, [{ deposit := depositSmallEx, children := [childBigEx], ragequit := none }]),
   (20, [{ deposit := depositEx, children := [], ragequit := none }])]

/-- Collaborators for the orchestrator fixtures: a selected account, two
configured networks, a keystore, a nonce collaborator answering 7. -/
def coEx : Collab :=
  { selectedAccount := some "0xAAA"
    networks := [1, 11155111]
    keystorePresent := true
    getNonce := fun _ _ => 7
    paymasterService := none }

/-- A privacy-pool call. -/
def callEx : Call := { «to» := "0xPool", value := 5, data := "0xdead" }

/-- A different call (different target, value and payload). -/
def callEx2 : Call := { «to» := "0xOther", value := 123, data := "0xbeef" }

/-- A session whose estimation is not running. -/
def ctrlW : SignCtrl :=
  { accountOp := default, estimationStatus := EstimationStatus.initial, estimationErrors := 0 }

/-- A fresh orchestrator that owns the session `ctrlW`. -/
def stW : PPState := { freshPPState with signAccountOpController := some ctrlW }

/-- A commitment to be spent. -/
def commitmentEx : AccountCommitment :=
  { value := 50, label := 1, nullifier := 5, secret := 6, hash := 99
    blockNumber := 3, timestamp := 0 }

/-- Another commitment with a different nullifier and hash. -/
def commitmentEx2 : AccountCommitment := { commitmentEx with nullifier := 7, hash := 123 }

/-- An opaque withdrawal-proof input. -/
def inputEx : WithdrawalProofInput := { raw := 0 }

/-! ## Helper lemmas about the reconciler. -/

/-- Every account emitted by the per-scope loop is the output of
`reconcileOne` on some chain of the scope. -/
theorem processScope_snd_shape {cfg : ChainCfg} {scope : Int} :
    ∀ {idx : Nat} {pas : List SDKPoolAccount} {a : PoolAccount},
      a ∈ (processScope cfg scope idx pas).2 →
      ∃ i pa, pa ∈ pas ∧ a = (reconcileOne cfg scope i pa).2 := by
  intro idx pas
  induction pas generalizing idx with
  | nil => intro a h; simp [processScope] at h
  | cons p rest ih =>
    intro a h
    rw [processScope] at h
    rcases List.mem_cons.mp h with h | h
    · exact ⟨idx, p, List.mem_cons_self p rest, h⟩
    · obtain ⟨i, pa, hmem, rfl⟩ := ih h
      exact ⟨i, pa, List.mem_cons_of_mem _ hmem, rfl⟩

/-- Every account in the full reconciliation output is the output of
`reconcileOne` on some chain of some scope. -/
theorem reconcileAll_snd_shape {cfg : ChainCfg} :
    ∀ {st : List (Int × List SDKPoolAccount)} {a : PoolAccount},
      a ∈ (reconcileAll cfg st).2 →
      ∃ scope i pa, a = (reconcileOne cfg scope i pa).2 := by
  intro st
  induction st with
  | nil => intro a h; simp [reconcileAll] at h
  | cons p rest ih =>
    intro a h
    obtain ⟨scope, pas⟩ := p
    rw [reconcileAll] at h
    rcases List.mem_append.mp h with h | h
    · obtain ⟨i, pa, _, rfl⟩ := processScope_snd_shape h
      exact ⟨scope, i, pa, rfl⟩
    · exact ih h

/-- C1: every pool account produced by `getPoolAccountsFromAccount` has
as its current (`lastCommitment`) commitment the last element of the
chain's children list, or the root deposit when the children list is
empty; with no ragequit event its balance is that commitment's value,
and with a ragequit event its balance is exactly 0. -/
theorem poolAccount_lastCommitment_balance (cfg : ChainCfg) (chainId : Int)
    (st : List (Int × List SDKPoolAccount)) (a : PoolAccount)
    (ha : a ∈ (getPoolAccountsFromAccount cfg chainId st).poolAccounts) :
    a.lastCommitment = a.children.getLast?.getD a.deposit ∧
    (a.ragequit = none → a.balance = a.lastCommitment.value) ∧
    (a.ragequit ≠ none → a.balance = 0) := by
  have hmem : a ∈ (reconcileAll cfg st).2 := by
    simpa [getPoolAccountsFromAccount] using ha
  obtain ⟨scope, i, pa, rfl⟩ := reconcileAll_snd_shape hmem
  cases h : pa.ragequit <;> simp [reconcileOne, setResolvedTimestamps, h]

/-- Witness for C1 at the concrete single-deposit chain `stEx`. -/
theorem poolAccount_lastCommitment_balance_witness :
    acctEx.lastCommitment = acctEx.children.getLast?.getD acctEx.deposit ∧
    (acctEx.ragequit = none → acctEx.balance = acctEx.lastCommitment.value) ∧
    (acctEx.ragequit ≠ none → acctEx.balance = 0) :=
  poolAccount_lastCommitment_balance cfgEx 11155111 stEx acctEx (by decide)

/-- The spec's first-match-wins status resolution (§4.1 rule 4), stated
from the spec's words for comparison with the code: ragequit → EXITED;
superseded → SPENT; in the approval set → APPROVED; rejected →
DECLINED; otherwise PENDING. -/
def reviewStatusSpec (ragequitPresent superseded approvedInSet rejected : Bool) : ReviewStatus :=
  if ragequitPresent then ReviewStatus.exited
  else if superseded then ReviewStatus.spent
  else if approvedInSet then ReviewStatus.approved
  else if rejected then ReviewStatus.declined
  else ReviewStatus.pending

/-- C2 counterexample: for the single-deposit chain of `stEx` (no
children, no ragequit) with the allow-list reporting the terminal
commitment approved, the spec's resolution demands APPROVED, but the
code's reconciliation produces PENDING — the approval set is never
consulted by `getPoolAccountsFromAccount`. -/
theorem reviewStatus_spec_counterexample :
    reviewStatusSpec false false true false = ReviewStatus.approved ∧
    acctEx.children = [] ∧ acctEx.ragequit = none ∧
    acctEx.reviewStatus = ReviewStatus.pending ∧
    ReviewStatus.pending ≠ ReviewStatus.approved := by decide

/-- C2 amended: reconciliation assigns EXITED exactly when a ragequit
event is present and PENDING otherwise; SPENT, APPROVED and DECLINED
are never produced, so an allow-list approval still yields PENDING. -/
theorem poolAccount_reviewStatus (cfg : ChainCfg) (chainId : Int)
    (st : List (Int × List SDKPoolAccount)) (a : PoolAccount)
    (ha : a ∈ (getPoolAccountsFromAccount cfg chainId st).poolAccounts) :
    a.reviewStatus =
      if a.ragequit.isSome then ReviewStatus.exited else ReviewStatus.pending := by
  have hmem : a ∈ (reconcileAll cfg st).2 := by
    simpa [getPoolAccountsFromAccount] using ha
  obtain ⟨scope, i, pa, rfl⟩ := reconcileAll_snd_shape hmem
  cases h : pa.ragequit <;> simp [reconcileOne, setResolvedTimestamps, h]

/-- Witness for the amended C2 at the concrete chain `stEx`. -/
theorem poolAccount_reviewStatus_witness :
    acctEx.reviewStatus =
      if acctEx.ragequit.isSome then ReviewStatus.exited else ReviewStatus.pending :=
  poolAccount_reviewStatus cfgEx 11155111 stEx acctEx (by decide)

/-- C3 counterexample: the zero-value deposit chain of `stZeroEx`
reconciles to an account with balance 0 whose status is neither EXITED
nor SPENT and which has no ragequit event, so `balance == 0` does not
imply the claimed right-hand side. -/
theorem balance_zero_iff_counterexample :
    acctZeroEx.balance = 0 ∧
    ¬ (acctZeroEx.reviewStatus = ReviewStatus.exited ∨
       acctZeroEx.reviewStatus = ReviewStatus.spent ∨
       acctZeroEx.ragequit.isSome) := by decide

/-- C3 amended: for every produced account, `balance == 0` holds iff its
status is EXITED or SPENT, or a ragequit event is present, or the
current commitment's value is itself 0. -/
theorem poolAccount_balance_zero_iff (cfg : ChainCfg) (chainId : Int)
    (st : List (Int × List SDKPoolAccount)) (a : PoolAccount)
    (ha : a ∈ (getPoolAccountsFromAccount cfg chainId st).poolAccounts) :
    (a.balance = 0 ↔
      a.reviewStatus = ReviewStatus.exited ∨ a.reviewStatus = ReviewStatus.spent ∨
      a.ragequit.isSome ∨ a.lastCommitment.value = 0) := by
  have hmem : a ∈ (reconcileAll cfg st).2 := by
    simpa [getPoolAccountsFromAccount] using ha
  obtain ⟨scope, i, pa, rfl⟩ := reconcileAll_snd_shape hmem
  cases h : pa.ragequit <;> simp [reconcileOne, setResolvedTimestamps, h]

/-- Witness for the amended C3 at the concrete chain `stEx`. -/
theorem poolAccount_balance_zero_iff_witness :
    (acctEx.balance = 0 ↔
      acctEx.reviewStatus = ReviewStatus.exited ∨ acctEx.reviewStatus = ReviewStatus.spent ∨
      acctEx.ragequit.isSome ∨ acctEx.lastCommitment.value = 0) :=
  poolAccount_balance_zero_iff cfgEx 11155111 stEx acctEx (by decide)

/-- The accounts one scope's chains produce, each computed by
`reconcileOne` from that chain alone (its scope and 1-based position
aside) — the per-chain decomposition of the reconciler's output. -/
def chainOutputs (cfg : ChainCfg) (scope : Int) : Nat → List SDKPoolAccount → List PoolAccount
  | _, [] => []
  | idx, pa :: rest => (reconcileOne cfg scope idx pa).2 :: chainOutputs cfg scope (idx + 1) rest

/-- The per-scope loop emits exactly the per-chain outputs. -/
theorem processScope_snd_eq (cfg : ChainCfg) (scope : Int) :
    ∀ (idx : Nat) (pas : List SDKPoolAccount),
      (processScope cfg scope idx pas).2 = chainOutputs cfg scope idx pas := by
  intro idx pas
  induction pas generalizing idx with
  | nil => simp [processScope, chainOutputs]
  | cons p rest ih => simp [processScope, chainOutputs, ih]

/-- Each chain contributes exactly one account. -/
theorem chainOutputs_length (cfg : ChainCfg) (scope : Int) :
    ∀ (idx : Nat) (pas : List SDKPoolAccount),
      (chainOutputs cfg scope idx pas).length = pas.length := by
  intro idx pas
  induction pas generalizing idx with
  | nil => simp [chainOutputs]
  | cons p rest ih => simp [chainOutputs, ih]

/-- C4 counterexample: scope 10's chain of `stMalformedEx` is malformed
(child value 200 exceeds its parent's 100), yet reconciliation does not
fail for it and produces no error of any kind: it yields an ordinary
account with balance 200 and status PENDING next to scope 20's sound
account — there is no `MalformedChainError` anywhere in the code. -/
theorem malformedChain_counterexample :
    depositSmallEx.value < childBigEx.value ∧
    ((getPoolAccountsFromAccount cfgEx 11155111 stMalformedEx).poolAccounts.map
        (fun a => (a.scope, a.balance, a.reviewStatus))) =
      [(10, 200, ReviewStatus.pending), (20, 50, ReviewStatus.pending)] := by decide

/-- C4 amended: reconciliation performs no chain validation at all:
every chain of every scope — malformed or not — produces exactly one
account, computed by `reconcileOne` from that chain alone, so the output
is the concatenation of the per-chain outputs and its length equals the
total number of chains; consequently no chain's content can suppress
any other chain's account. -/
theorem getPoolAccounts_total (cfg : ChainCfg) (chainId : Int)
    (st : List (Int × List SDKPoolAccount)) :
    (getPoolAccountsFromAccount cfg chainId st).poolAccounts =
      (st.map (fun p => chainOutputs cfg p.1 1 p.2)).flatten ∧
    (getPoolAccountsFromAccount cfg chainId st).poolAccounts.length =
      (st.map (fun p => p.2.length)).sum := by
  have hmain : ∀ s : List (Int × List SDKPoolAccount),
      (reconcileAll cfg s).2 = (s.map (fun p => chainOutputs cfg p.1 1 p.2)).flatten := by
    intro s
    induction s with
    | nil => simp [reconcileAll]
    | cons p rest ih =>
      obtain ⟨scope, pas⟩ := p
      simp [reconcileAll, processScope_snd_eq, ih]
  have hlen : ∀ s : List (Int × List SDKPoolAccount),
      ((s.map (fun p => chainOutputs cfg p.1 1 p.2)).flatten).length =
        (s.map (fun p => p.2.length)).sum := by
    intro s
    induction s with
    | nil => simp
    | cons p rest ih => simp [chainOutputs_length, ih]
  constructor
  · simpa [getPoolAccountsFromAccount] using hmain st
  · have h1 := hmain st
    have h2 := hlen st
    simp [getPoolAccountsFromAccount, h1, h2]

/-- The per-scope loop leaves behind exactly the timestamp-resolved
chains. -/
theorem processScope_fst_eq (cfg : ChainCfg) (scope : Int) :
    ∀ (idx : Nat) (pas : List SDKPoolAccount),
      (processScope cfg scope idx pas).1 = pas.map setResolvedTimestamps := by
  intro idx pas
  induction pas generalizing idx with
  | nil => simp [processScope]
  | cons p rest ih => simp [processScope, reconcileOne, ih]

/-- C6 counterexample: one call of `getPoolAccountsFromAccount` on
`stEx` leaves the account service's stored chains changed — the deposit
recorded at block 1 has its `timestamp` overwritten in place (0 becomes
the resolved 1719876543), so the inputs are not structurally unchanged. -/
theorem reconcile_mutates_counterexample :
    (getPoolAccountsFromAccount cfgEx 11155111 stEx).state ≠ stEx := by decide

/-- C6 amended: reconciliation is read-only except for timestamps: after
a call, the stored map holds the same scopes and chains, but with every
deposit's, child's and ragequit event's `timestamp` field overwritten
with its resolved value (`setResolvedTimestamps`); nothing else about
the stored chains changes. -/
theorem getPoolAccounts_state (cfg : ChainCfg) (chainId : Int)
    (st : List (Int × List SDKPoolAccount)) :
    (getPoolAccountsFromAccount cfg chainId st).state =
      st.map (fun p => (p.1, p.2.map setResolvedTimestamps)) := by
  simp only [getPoolAccountsFromAccount]
  induction st with
  | nil => simp [reconcileAll]
  | cons p rest ih =>
    obtain ⟨scope, pas⟩ := p
    simp [reconcileAll, processScope_fst_eq, ih]

/-! ## Orchestrator theorems. -/

/-- C5: evaluation of `syncSignAccountOp` at the failing input: with a
selected account, no existing session, a keystore, networks 1 and
11155111 configured and a nonce collaborator answering 7, a non-empty
call list yields exactly one instantiated session whose operation stores
the fetched nonce — but its chain id is 11155111 (Sepolia), and a
completely different call list produces the very same chain id: the
chain id is hard-coded (`calls.length > 0 ? BigInt(11155111) :
11155111n` yields 11155111n on both branches), not derived from the
supplied calls as the code's own comment announces. -/
theorem syncSignAccountOp_hardcoded_chainId :
    ((syncSignAccountOp coEx freshPPState (some [callEx])).signAccountOpController.map
        (fun c => c.accountOp.chainId)) = some 11155111 ∧
    ((syncSignAccountOp coEx freshPPState (some [callEx2])).signAccountOpController.map
        (fun c => c.accountOp.chainId)) = some 11155111 ∧
    callEx ≠ callEx2 ∧
    ((syncSignAccountOp coEx freshPPState (some [callEx])).signAccountOpController.map
        (fun c => c.accountOp.nonce)) = some 7 ∧
    ((syncSignAccountOp coEx freshPPState (some [callEx])).signAccountOpController.map
        (fun c => c.accountOp.calls)) = some [callEx] ∧
    (syncSignAccountOp coEx freshPPState (some [callEx])).sessionsCreated = 1 := by decide

/-- One interval advance on a state owning one live loop and a session
that is not estimating: the loop survives and triggers exactly one
estimation, everything else unchanged. -/
theorem tick_live (s : PPState) (c : SignCtrl) (t : Nat)
    (h1 : s.signAccountOpController = some c)
    (h2 : c.estimationStatus ≠ EstimationStatus.loading)
    (h3 : s.loops = [t])
    (h4 : s.abortedTokens.contains t = false) :
    tick s = { s with loops := [t], estimateCount := s.estimateCount + 1 } := by
  have h5 : t ∉ s.abortedTokens := by simpa using h4
  simp [tick, h1, h2, h3, h5]

/-- Iterating interval advances from such a state adds exactly one
estimation per advance. -/
theorem tick_iter_live (c : SignCtrl) (t : Nat)
    (h2 : c.estimationStatus ≠ EstimationStatus.loading) :
    ∀ (n : Nat) (s : PPState),
      s.signAccountOpController = some c →
      s.loops = [t] →
      s.abortedTokens.contains t = false →
      (tick^[n] s).estimateCount = s.estimateCount + n := by
  intro n
  induction n with
  | zero => intro s _ _ _; simp
  | succ m ih =>
    intro s h1 h3 h4
    have hstep := tick_live s c t h1 h2 h3 h4
    rw [Function.iterate_succ_apply, hstep]
    rw [ih { s with loops := [t], estimateCount := s.estimateCount + 1 }
      (by simpa using h1) rfl (by simpa using h4)]
    show s.estimateCount + 1 + m = s.estimateCount + (m + 1)
    omega

/-- C8: with a session present, no abort controller and no loop running
(and the session not estimating, the fresh loop token unaborted),
calling `reestimate` twice in succession equals calling it once — the
second call is a no-op because the abort controller already exists — so
exactly one loop is active, and `n` interval advances trigger exactly
`n` estimations, not `2n`. -/
theorem reestimate_single_loop (st : PPState) (c : SignCtrl) (n : Nat)
    (h1 : st.signAccountOpController = some c)
    (h2 : st.reestimateAbortController = none)
    (h3 : st.loops = [])
    (h4 : c.estimationStatus ≠ EstimationStatus.loading)
    (h5 : st.abortedTokens.contains st.nextToken = false) :
    reestimate (reestimate st) = reestimate st ∧
    (reestimate st).loops.length = 1 ∧
    (tick^[n] (reestimate st)).estimateCount = st.estimateCount + n := by
  have hr : reestimate st =
      { st with
        reestimateAbortController := some st.nextToken
        loops := st.loops ++ [st.nextToken]
        nextToken := st.nextToken + 1 } := by
    simp [reestimate, h1, h2]
  refine ⟨?_, ?_, ?_⟩
  · rw [hr]
    simp [reestimate]
  · rw [hr, h3]
    rfl
  · rw [hr]
    have := tick_iter_live c st.nextToken h4 n
      { st with
        reestimateAbortController := some st.nextToken
        loops := st.loops ++ [st.nextToken]
        nextToken := st.nextToken + 1 }
      (by simpa using h1) (by simp [h3]) (by simpa using h5)
    simpa using this

/-- Witness for C8: a fresh orchestrator owning the idle session
`ctrlW`, with three interval advances. -/
theorem reestimate_single_loop_witness :
    reestimate (reestimate stW) = reestimate stW ∧
    (reestimate stW).loops.length = 1 ∧
    (tick^[3] (reestimate stW)).estimateCount = stW.estimateCount + 3 :=
  reestimate_single_loop stW ctrlW 3 rfl rfl rfl (by decide) (by decide)

/-- C9 counterexample: on an orchestrator whose form has been touched
(`update` set `depositAmount` to `"1"`), `destroySignAccountOp` called
twice in succession leaves a state different from a fresh instance — the
form fields survive teardown, so the double-teardown state is not
identical to that of a fresh instance. -/
theorem destroy_not_fresh_counterexample :
    destroySignAccountOp (destroySignAccountOp
        (update freshPPState (some "1") none none none)) ≠ freshPPState := by decide

/-- C9 amended: `destroySignAccountOp` is total (modelled by a total
function: nothing in it can throw) and idempotent, and it resets exactly
the session-lifecycle state — subscriptions, the re-estimation abort
controller, the session reference and `hasProceeded` — to fresh-instance
values, while every other field (the form fields, the selected token,
the latest broadcasted operation, the initialization flag) keeps its
value; in particular it is a no-op when no session, no abort controller,
no subscriptions and no `hasProceeded` flag are present, and the double-
teardown state equals a fresh instance exactly when the preserved fields
already hold their fresh values. -/
theorem destroySignAccountOp_spec (st : PPState) :
    destroySignAccountOp (destroySignAccountOp st) = destroySignAccountOp st ∧
    (destroySignAccountOp st).signAccountOpController = none ∧
    (destroySignAccountOp st).reestimateAbortController = none ∧
    (destroySignAccountOp st).subscriptionsCount = 0 ∧
    (destroySignAccountOp st).hasProceeded = false ∧
    (destroySignAccountOp st).depositAmount = st.depositAmount ∧
    (destroySignAccountOp st).withdrawalAmount = st.withdrawalAmount ∧
    (destroySignAccountOp st).seedPhrase = st.seedPhrase ∧
    (destroySignAccountOp st).targetAddress = st.targetAddress ∧
    (destroySignAccountOp st).selectedToken = st.selectedToken ∧
    (destroySignAccountOp st).latestBroadcastedAccountOp = st.latestBroadcastedAccountOp ∧
    (destroySignAccountOp st).isInitializedFlag = st.isInitializedFlag ∧
    (st.signAccountOpController = none → st.reestimateAbortController = none →
      st.subscriptionsCount = 0 → st.hasProceeded = false →
      destroySignAccountOp st = st) := by
  obtain ⟨d, w, sp, ta, tok, hp, ii, str, lb, ctrl, sc, ab, nt, lp, abt, ec, snc⟩ := st
  cases ab <;> cases ctrl <;> simp_all [destroySignAccountOp]

/-- Witness for the amended C9: on a fresh instance, teardown is a
perfect no-op. -/
theorem destroySignAccountOp_spec_witness :
    destroySignAccountOp freshPPState = freshPPState :=
  (destroySignAccountOp_spec freshPPState).2.2.2.2.2.2.2.2.2.2.2.2 rfl rfl rfl rfl

/-- C10: `update` overwrites `seedPhrase` with the supplied value, or
with the empty string when it is absent or falsy (the empty string),
while `depositAmount`, `withdrawalAmount` and `targetAddress` are
overwritten only when the corresponding argument is a string and keep
their previous values otherwise. -/
theorem update_fields (st : PPState)
    (depositAmount withdrawalAmount seedPhrase targetAddress : Option String) :
    (update st depositAmount withdrawalAmount seedPhrase targetAddress).seedPhrase =
      seedPhrase.getD "" ∧
    (update st depositAmount withdrawalAmount seedPhrase targetAddress).depositAmount =
      depositAmount.getD st.depositAmount ∧
    (update st depositAmount withdrawalAmount seedPhrase targetAddress).withdrawalAmount =
      withdrawalAmount.getD st.withdrawalAmount ∧
    (update st depositAmount withdrawalAmount seedPhrase targetAddress).targetAddress =
      targetAddress.getD st.targetAddress := by
  have hsp : ∀ s : String, (if s = "" then "" else s) = s := by
    intro s
    by_cases hs : s = "" <;> simp [hs]
  cases depositAmount <;> cases withdrawalAmount <;> cases targetAddress <;>
    rcases seedPhrase with _ | s <;> simp [update, hsp]

/-- C7: evaluation of `generateWithdrawalProof` at the failing input:
with the SDK initialized it never fails before delegating — for both
`commitmentEx` and `commitmentEx2`, which differ in their nullifier and
hash, the call reaches the prover (`Except.ok`), and the payload's
`nullifierHash` and `precommitment.hash` are the constant
`0x1234 = 4660`, independent of the commitment being spent; only the
public `hash` field is taken from the commitment.  There is no
mismatch check between the commitment and the preimage hashes. -/
theorem generateWithdrawalProof_constant_hash :
    ((generateWithdrawalProof true commitmentEx inputEx).toOption.map
        (fun p => p.1.nullifierHash)) = some 4660 ∧
    ((generateWithdrawalProof true commitmentEx2 inputEx).toOption.map
        (fun p => p.1.nullifierHash)) = some 4660 ∧
    commitmentEx.nullifier ≠ commitmentEx2.nullifier ∧
    ((generateWithdrawalProof true commitmentEx inputEx).toOption.map
        (fun p => p.1.preimage.precommitment.hash)) = some 4660 ∧
    ((generateWithdrawalProof true commitmentEx inputEx).toOption.map
        (fun p => p.1.hash)) = some commitmentEx.hash := by decide
